import Mathlib

/-!
Verification of the spam_block_reqs client: a shallow embedding of
src/message_handler.rs, src/lib.rs and src/main.rs, followed by theorems
about the handshake state machine, the response matcher, the batch
dispatcher and the orchestrator arithmetic.

Conventions of the embedding:
* machine integers are `Nat`; service flags are a `Nat` bitmask;
* socket writes are recorded as a list of `RawNetworkMessage` frames
  (the external wire codec is out of scope, as in the spec);
* fallible operations return an `Option String` error component, where
  `none` means `Ok` and `some e` models `Err(anyhow!(e))`;
* the inbound byte stream is modelled at frame granularity as a list of
  already-decoded messages (or command strings for the response matcher);
  a decode attempt past the end of the list models the I/O error the
  codec raises at end of stream.
-/

namespace SpamBlockReqs

/-- Model of the external `bitcoin` crate constant
`network::constants::PROTOCOL_VERSION` used by `handle_version_msg`. -/
def PROTOCOL_VERSION : Nat := 70001

/-- Model of the external `ServiceFlags::WITNESS` bit (1 shifted left 3). -/
def WITNESS_FLAG : Nat := 8

/-- Model of `ServiceFlags::has`: `(self.0 & flags.0) == flags.0`. -/
def ServiceFlags.has (s flags : Nat) : Bool := s &&& flags == flags

/-- The fields of the external `VersionMessage` that the code inspects. -/
structure VersionMessage where
  version : Nat
  services : Nat
  relay : Bool
deriving DecidableEq

/-- A block header; computing its hash is external codec work, so the
model carries the computed hash value directly. -/
structure Header where
  hashVal : Nat
deriving DecidableEq

/-- Model of `Header::block_hash()`. -/
def Header.block_hash (h : Header) : Nat := h.hashVal

/-- The fields of the external `Block` used by `handle_block`. -/
structure Block where
  header : Header
deriving DecidableEq

/-- Model of `message_blockdata::Inventory` (the variants this code uses). -/
inductive Inventory where
  | Block (hash : Nat)
  | WitnessBlock (hash : Nat)
  | CompactBlock (hash : Nat)
deriving DecidableEq

/-- Model of `NetworkMessage`: the variants the code matches on by name,
plus `OtherMsg` standing for every remaining variant of the external
enum (all of which fall into the catch-all arms of the source). -/
inductive NetworkMessage where
  | Version (msg : VersionMessage)
  | Verack
  | WtxidRelay
  | SendAddrV2
  | Block (b : Block)
  | Ping (nonce : Nat)
  | Pong (nonce : Nat)
  | GetData (inv : List Inventory)
  | Inv (inv : List Inventory)
  | Unknown (command : String)
  | OtherMsg (tag : String)
deriving DecidableEq

/-- Model of `RawNetworkMessage`: a frame is the network magic plus the
typed payload. -/
structure RawNetworkMessage where
  magic : Nat
  payload : NetworkMessage
deriving DecidableEq

/-- `BroadcastState` from src/message_handler.rs. -/
inductive BroadcastState where
  | Connected
  | AwaitingVersion
  | AwaitingVerack
  | AwaitingBlock
  | Done
deriving DecidableEq

/-- `MessageHandler` from src/message_handler.rs; the writer is replaced
by recording written frames in results. -/
structure MessageHandler where
  magic : Nat
  block_hash : Nat
  state : BroadcastState
deriving DecidableEq

/-- The frames a call wrote, plus its error outcome (`none` = `Ok`).
Frames recorded in `sent` were written even when `error` is `some`,
mirroring that Rust writes happen before a later `return Err`. -/
structure FlowResult where
  sent : List RawNetworkMessage
  error : Option String
deriving DecidableEq

/-- `MessageHandler::handle_version_msg` (src/message_handler.rs lines
111-144): reject a peer that does not relay or lacks the witness bit
before writing anything; if the announced version equals
`PROTOCOL_VERSION`, write WtxidRelay then SendAddrV2; always write
Verack afterwards. -/
def handle_version_msg (h : MessageHandler) (vm : VersionMessage) : FlowResult :=
  if vm.relay = false then
    ⟨[], some "Node does not relay transactions"⟩
  else if ServiceFlags.has vm.services WITNESS_FLAG = false then
    ⟨[], some "Node does not support segwit"⟩
  else
    let pre : List RawNetworkMessage :=
      if vm.version = PROTOCOL_VERSION then
        [⟨h.magic, .WtxidRelay⟩, ⟨h.magic, .SendAddrV2⟩]
      else []
    ⟨pre ++ [⟨h.magic, .Verack⟩], none⟩

/-- `MessageHandler::handle_verack_msg` (lines 146-156): write
GetData(Block, target hash); always succeeds. -/
def handle_verack_msg (h : MessageHandler) : FlowResult :=
  ⟨[⟨h.magic, .GetData [.Block h.block_hash]⟩], none⟩

/-- `MessageHandler::handle_block` (lines 163-176): write GetData(Block,
target hash) first, then fail when the block header hash differs from
the target. -/
def handle_block (h : MessageHandler) (b : Block) : FlowResult :=
  ⟨[⟨h.magic, .GetData [.Block h.block_hash]⟩],
    if b.header.block_hash ≠ h.block_hash then
      some "Block message does not contain our block"
    else none⟩

/-- `MessageHandler::handle_ping_msg` (lines 178-187): write Pong with
the same nonce; always succeeds. -/
def handle_ping_msg (h : MessageHandler) (nonce : Nat) : FlowResult :=
  ⟨[⟨h.magic, .Pong nonce⟩], none⟩

/-- Result of one `handle_message` call: the handler after the call, the
frames written during the call, and the error outcome. -/
structure StepResult where
  handler : MessageHandler
  sent : List RawNetworkMessage
  error : Option String
deriving DecidableEq

/-- `MessageHandler::handle_message` (src/message_handler.rs lines
54-109), one inbound message. State changes happen only after the
corresponding sub-handler succeeded, exactly as in the source; the
final catch-all arm only logs. -/
def handle_message (h : MessageHandler) (msg : NetworkMessage) : StepResult :=
  match msg with
  | .Version vm =>
    if h.state ≠ .AwaitingVersion then
      ⟨h, [], some "Received version msg out of order"⟩
    else
      let r := handle_version_msg h vm
      match r.error with
      | some e => ⟨h, r.sent, some e⟩
      | none => ⟨{ h with state := .AwaitingVerack }, r.sent, none⟩
  | .Verack =>
    if h.state ≠ .AwaitingVerack then
      ⟨h, [], some "Received verack msg out of order"⟩
    else
      let r := handle_verack_msg h
      match r.error with
      | some e => ⟨h, r.sent, some e⟩
      | none => ⟨{ h with state := .AwaitingBlock }, r.sent, none⟩
  | .WtxidRelay =>
    if h.state ≠ .AwaitingVerack then
      ⟨h, [], some "Received wtxidrelay msg out of order"⟩
    else ⟨h, [], none⟩
  | .SendAddrV2 =>
    if h.state ≠ .AwaitingVerack then
      ⟨h, [], some "Received sendaddrv2 msg out of order"⟩
    else ⟨h, [], none⟩
  | .Block b =>
    if h.state ≠ .AwaitingBlock then
      ⟨h, [], some "Received block msg out of order"⟩
    else
      let r := handle_block h b
      ⟨h, r.sent, r.error⟩
  | .Ping nonce =>
    let r := handle_ping_msg h nonce
    ⟨h, r.sent, r.error⟩
  | .Unknown command =>
    if h.state ≠ .AwaitingBlock ∧ h.state ≠ .Done then
      ⟨h, [], some ("Received " ++ command ++ " msg out of order")⟩
    else ⟨h, [], none⟩
  | _ => ⟨h, [], none⟩

/-- The error the external decoder raises when the stream ends while a
frame is being read; our model of a clean close mid-read. -/
def eofError : String := "failed to fill whole buffer"

/-- The loop body of `perform_handshake` (src/lib.rs lines 114-134):
reply Verack to any Version, stop successfully on Verack, silently skip
everything else; decoding past the end of the stream fails. `sent`
accumulates the frames written so far. -/
def handshakeLoop (magic : Nat) : List NetworkMessage → List RawNetworkMessage → FlowResult
  | [], sent => ⟨sent, some eofError⟩
  | m :: rest, sent =>
    match m with
    | .Version _ => handshakeLoop magic rest (sent ++ [⟨magic, .Verack⟩])
    | .Verack => ⟨sent, none⟩
    | _ => handshakeLoop magic rest sent

/-- `perform_handshake` (src/lib.rs lines 105-137): write our own
Version message (its nonce and timestamp come from ambient randomness
and the clock, so it is a parameter here), then run the reply loop over
the inbound stream. -/
def perform_handshake (magic : Nat) (vm : VersionMessage)
    (inbound : List NetworkMessage) : FlowResult :=
  handshakeLoop magic inbound [⟨magic, .Version vm⟩]

/-- The batch buffer `make_requests` builds (src/lib.rs lines 161-165):
`number` back-to-back serializations of the same message. `ser` is the
external `serialize`. -/
def batchBytes (ser : RawNetworkMessage → List Nat)
    (msg : RawNetworkMessage) (number : Nat) : List Nat :=
  (List.replicate number (ser msg)).flatten

/-- `make_requests` (src/lib.rs lines 160-170): one bulk `write` of the
batch buffer. The writer returns how many bytes it accepted or an I/O
error; the source discards the returned count (`writer.write(..)?`), so
the model succeeds whenever `write` did not error. -/
def make_requests (write : List Nat → Except String Nat)
    (ser : RawNetworkMessage → List Nat) (msg : RawNetworkMessage)
    (number : Nat) : Except String Unit :=
  match write (batchBytes ser msg number) with
  | .error e => .error e
  | .ok _ => .ok ()

/-- Outcome of the response matcher: how many success outcomes were
delivered on the channel, and the error the loop returned (`none` =
returned `Ok`). -/
structure MatchResult where
  delivered : Nat
  error : Option String
deriving DecidableEq

/-- The error message of src/lib.rs line 187. -/
def blockInsteadMsg (command : String) : String :=
  "Received block response instead of expected " ++ command ++
    ". Requested block is too deep in the chain. Try with a block that is <10 blocks deep from chain tip."

/-- The loop of `receive_responses` (src/lib.rs lines 179-189) at frame
granularity: `frames` is the list of command strings of the inbound
frames, after which the stream is closed (decoding then fails with
`eofError`). `recvOpen` tells whether the channel receiver is still
alive: a matching frame sends a success outcome when it is, and breaks
out of the loop returning `Ok` when it is not. A `block` frame while
expecting `cmpctblock` or `blocktxn` is a fatal error. Anything else is
skipped. `acc` counts success outcomes delivered so far. -/
def receiveLoop (command : String) (recvOpen : Bool) (acc : Nat) :
    List String → MatchResult
  | [] => ⟨acc, some eofError⟩
  | cmd :: rest =>
    if cmd = command then
      if recvOpen then receiveLoop command recvOpen (acc + 1) rest
      else ⟨acc, none⟩
    else if (command = "cmpctblock" ∨ command = "blocktxn") ∧ cmd = "block" then
      ⟨acc, some (blockInsteadMsg command)⟩
    else receiveLoop command recvOpen acc rest

/-- The worker closure tail of src/main.rs lines 120-122: a worker whose
request function returned an error sends that error onto the outcome
channel as a `Failure`; a worker that returned `Ok` sends nothing more. -/
def workerReports (res : Option String) : List (Option String) :=
  match res with
  | none => []
  | some e => [some e]

/-- Frame-level view of the send side of `request_witness_blocks`
(src/lib.rs lines 19-32): run `perform_handshake`; when it fails,
nothing more is sent; when it succeeds, `make_requests` writes `number`
copies of GetData(WitnessBlock, target) (shown here with a writer that
accepts every byte, to expose which frames the flow emits). -/
def spamFlowSends (magic bh : Nat) (vm : VersionMessage) (number : Nat)
    (inbound : List NetworkMessage) : FlowResult :=
  let r := perform_handshake magic vm inbound
  match r.error with
  | some e => ⟨r.sent, some e⟩
  | none =>
    ⟨r.sent ++ List.replicate number ⟨magic, .GetData [.WitnessBlock bh]⟩, none⟩

/-- src/main.rs line 71: `let number = number - number % connections;`.
Rust `%` with divisor zero aborts with a panic; modelled as `none`. -/
def rustRem (a b : Nat) : Option Nat :=
  if b = 0 then none else some (a % b)

/-- Rust `/` with divisor zero also aborts; modelled as `none`. -/
def rustDiv (a b : Nat) : Option Nat :=
  if b = 0 then none else some (a / b)

/-- The adjusted total of src/main.rs line 71 (for positive divisor). -/
def adjustedNumber (number connections : Nat) : Nat :=
  number - number % connections

/-- src/main.rs line 72: the per-connection request count. -/
def reqsPerConnection (number connections : Nat) : Nat :=
  adjustedNumber number connections / connections

/-- The spawn loop of src/main.rs lines 77-124 hands every one of the
`connections` workers the same `reqs_per_connection`. -/
def workerAssignments (number connections : Nat) : List Nat :=
  List.replicate connections (reqsPerConnection number connections)

/-- The Rust panic message for a zero remainder divisor. -/
def remPanicMsg : String :=
  "attempt to calculate the remainder with a divisor of zero"

/-- The Rust panic message for a zero division divisor. -/
def divPanicMsg : String := "attempt to divide by zero"

/-- What `main` reached: it either panicked during the arithmetic of
lines 71-72, or went on to spawn `connections` workers with `reqsPer`
requests each. -/
inductive MainPhase where
  | panicked (msg : String)
  | spawning (connections : Nat) (reqsPer : Nat)
deriving DecidableEq

/-- src/main.rs lines 71-77: the arithmetic runs before any thread is
spawned or any connection attempted, so a panic there stops `main`
without reaching the spawn loop. -/
def mainSpawnPhase (number connections : Nat) : MainPhase :=
  match rustRem number connections with
  | none => .panicked remPanicMsg
  | some r =>
    match rustDiv (number - r) connections with
    | none => .panicked divPanicMsg
    | some q => .spawning connections q

/-- Connections attempted by `main`: the spawn loop of line 77 runs only
when the arithmetic did not panic. -/
def connectionsAttempted (number connections : Nat) : Nat :=
  match mainSpawnPhase number connections with
  | .panicked _ => 0
  | .spawning c _ => c

/-- The clap argument `connections` (src/main.rs lines 16-18) is a bare
`u8` with no validator, so the CLI accepts any value in 0..=255. -/
def cliAcceptsConnections (c : Nat) : Bool := c ≤ 255

/-- Specification-side predicate (for comparison with `handle_message`):
the (state, message) pairs the source rejects as out of order — a
Version outside AwaitingVersion, a Verack / WtxidRelay / SendAddrV2
outside AwaitingVerack, a Block outside AwaitingBlock, and an unknown
command outside AwaitingBlock and Done. -/
def spec_msgOutOfOrder (s : BroadcastState) (msg : NetworkMessage) : Bool :=
  match msg with
  | .Version _ => s ≠ .AwaitingVersion
  | .Verack => s ≠ .AwaitingVerack
  | .WtxidRelay => s ≠ .AwaitingVerack
  | .SendAddrV2 => s ≠ .AwaitingVerack
  | .Block _ => s ≠ .AwaitingBlock
  | .Unknown _ => s ≠ .AwaitingBlock ∧ s ≠ .Done
  | _ => false

/-- Specification-side predicate: the in-order messages the source still
rejects — a Version from a peer that does not relay or lacks witness
support, and a Block whose hash misses the target. -/
def spec_inOrderPolicyFailure (h : MessageHandler) (msg : NetworkMessage) : Bool :=
  match msg with
  | .Version vm =>
    h.state = .AwaitingVersion ∧
      (vm.relay = false ∨ ServiceFlags.has vm.services WITNESS_FLAG = false)
  | .Block b =>
    h.state = .AwaitingBlock ∧ b.header.block_hash ≠ h.block_hash
  | _ => false

/-- A writer that reports a short write: it accepts 0 of the offered
bytes yet signals no I/O error — the weakest behaviour `Write::write`
permits. -/
def zeroWrite : List Nat → Except String Nat := fun _ => Except.ok 0

/-- A sample external serializer giving every frame a 4-byte encoding;
only the nonzero length matters for the partial-write claims. -/
def fourByteSer : RawNetworkMessage → List Nat := fun _ => [0, 0, 0, 0]

/-- A sample request frame for the dispatcher claims. -/
def msg0 : RawNetworkMessage := ⟨0, .GetData [.WitnessBlock 0]⟩

/-- C1 counterexample. The pair (Connected, Pong) is not listed in the
transition table of spec section 4.2, yet `handle_message` accepts it
with no error (the catch-all arm only logs), and the spam-flow
handshake loop likewise skips a Pong silently before completing on the
following Verack. So an unlisted pair is NOT a fatal error. -/
theorem pong_in_connected_not_fatal :
    handle_message ⟨0, 0, .Connected⟩ (.Pong 0) = ⟨⟨0, 0, .Connected⟩, [], none⟩ ∧
      (handshakeLoop 0 [.Pong 0, .Verack] []).error = none := by
  constructor
  · rfl
  · rfl

/-- C1 (amended): `handle_message` returns an error exactly when the
message is one of the explicitly checked kinds received in the wrong
state (`spec_msgOutOfOrder`), or an in-order Version / Block failing
its policy check; every other message — Pong, Inv, GetData, or any
variant of the catch-all arm — is accepted in every state. The
spam-flow handshake loop fails only when the stream ends before a
Verack. -/
theorem handle_message_error_iff :
    (∀ (h : MessageHandler) (msg : NetworkMessage),
      (handle_message h msg).error.isSome =
        (spec_msgOutOfOrder h.state msg || spec_inOrderPolicyFailure h msg)) ∧
    (∀ (magic : Nat) (inbound : List NetworkMessage) (sent : List RawNetworkMessage),
      (handshakeLoop magic inbound sent).error = none ∨
        (handshakeLoop magic inbound sent).error = some eofError) := by
  constructor
  · intro h msg
    obtain ⟨m, bh, s⟩ := h
    cases msg with
    | Version vm =>
      rcases vm with ⟨v, sv, rl⟩
      cases s <;> cases rl <;>
        simp [handle_message, handle_version_msg, spec_msgOutOfOrder,
          spec_inOrderPolicyFailure] <;>
        by_cases hw : ServiceFlags.has sv WITNESS_FLAG = false <;>
        simp [hw]
    | Block b =>
      cases s <;>
        simp [handle_message, handle_block, spec_msgOutOfOrder,
          spec_inOrderPolicyFailure] <;>
        by_cases hb : b.header.block_hash = bh <;>
        simp [Header.block_hash] at hb ⊢ <;> simp [hb]
    | Unknown c =>
      cases s <;>
        simp [handle_message, spec_msgOutOfOrder, spec_inOrderPolicyFailure]
    | _ =>
      cases s <;>
        simp [handle_message, handle_ping_msg, handle_verack_msg,
          spec_msgOutOfOrder, spec_inOrderPolicyFailure]
  · intro magic inbound
    induction inbound with
    | nil => intro sent; right; rfl
    | cons m rest ih =>
      intro sent
      cases m <;> first
        | exact Or.inl rfl
        | exact ih _

/-- C3: in state AwaitingBlock, a Block whose computed hash equals the
target makes `handle_message` re-send GetData(Block, target) and report
success (`error = none`), but the state after the call is still
AwaitingBlock — the source never assigns `BroadcastState::Done`, even
though `Done` is declared and the Unknown-command arm tests for it. -/
theorem block_match_leaves_state_awaiting_block :
    handle_message ⟨0, 5, .AwaitingBlock⟩ (.Block ⟨⟨5⟩⟩) =
      ⟨⟨0, 5, .AwaitingBlock⟩, [⟨0, .GetData [.Block 5]⟩], none⟩ ∧
    (handle_message ⟨0, 5, .AwaitingBlock⟩ (.Block ⟨⟨5⟩⟩)).handler.state ≠
      BroadcastState.Done := by
  constructor
  · rfl
  · decide

/-- C10: the CLI accepts `connections = 0` (a bare u8 argument), and
`main` then panics in the remainder computation of line 71 — with the
Rust divide-by-zero remainder panic message — before the spawn loop
runs, so no connection is ever attempted. -/
theorem connections_zero_panics_before_connect :
    cliAcceptsConnections 0 = true ∧
    (∀ number : Nat, mainSpawnPhase number 0 = .panicked remPanicMsg) ∧
    (∀ number : Nat, connectionsAttempted number 0 = 0) := by
  refine ⟨rfl, fun number => rfl, fun number => rfl⟩

/-- C2 counterexample. `perform_handshake` replies Verack to a peer
whose Version message has `relay = false`: with our own version message
⟨70001, 8, true⟩ and an inbound stream holding exactly that Version,
the frames written include a Verack addressed to that peer. -/
theorem perform_handshake_sends_verack_to_no_relay_peer :
    (⟨0, .Verack⟩ : RawNetworkMessage) ∈
      (perform_handshake 0 ⟨70001, 8, true⟩ [.Version ⟨70001, 8, false⟩]).sent := by
  decide

/-- C2 (amended): the MessageHandler state machine aborts on a Version
from a peer that does not relay (or lacks the witness bit) before
writing anything, so it never sends Verack to such a peer; the
spam-flow `perform_handshake` performs no such check and replies Verack
to every inbound Version message regardless of its relay flag. -/
theorem no_verack_before_handshake_abort :
    (∀ (h : MessageHandler) (vm : VersionMessage),
      h.state = .AwaitingVersion →
      (vm.relay = false ∨ ServiceFlags.has vm.services WITNESS_FLAG = false) →
      (handle_message h (.Version vm)).error.isSome = true ∧
        (handle_message h (.Version vm)).sent = []) ∧
    (∀ (magic : Nat) (vmPeer : VersionMessage) (rest : List NetworkMessage)
        (sent : List RawNetworkMessage),
      handshakeLoop magic (.Version vmPeer :: rest) sent =
        handshakeLoop magic rest (sent ++ [⟨magic, .Verack⟩])) := by
  constructor
  · intro h vm hs hcond
    rcases hcond with hr | hw
    · simp [handle_message, hs, handle_version_msg, hr]
    · by_cases hr : vm.relay = false <;>
        simp [handle_message, hs, handle_version_msg, hr, hw]
  · intro magic vmPeer rest sent
    rfl

/-- Witness for the C2 theorem at a concrete no-relay peer. -/
theorem no_verack_before_handshake_abort_witness :
    (handle_message ⟨0, 0, .AwaitingVersion⟩ (.Version ⟨70001, 8, false⟩)).error.isSome = true ∧
      (handle_message ⟨0, 0, .AwaitingVersion⟩ (.Version ⟨70001, 8, false⟩)).sent = [] :=
  no_verack_before_handshake_abort.1 ⟨0, 0, .AwaitingVersion⟩ ⟨70001, 8, false⟩ rfl (Or.inl rfl)

/-- C4 counterexample. Whether the WtxidRelay notice is sent is not
monotone in the announced version, so it cannot be of the form
"version at least some threshold": a relaying, witness-capable peer
announcing 70001 receives the notice, while the same peer announcing
the larger version 70002 does not. -/
theorem wtxid_notice_not_monotone_in_version :
    (⟨0, .WtxidRelay⟩ : RawNetworkMessage) ∈
        (handle_message ⟨0, 5, .AwaitingVersion⟩ (.Version ⟨70001, 8, true⟩)).sent ∧
      70001 ≤ 70002 ∧
      (⟨0, .WtxidRelay⟩ : RawNetworkMessage) ∉
        (handle_message ⟨0, 5, .AwaitingVersion⟩ (.Version ⟨70002, 8, true⟩)).sent := by
  decide

/-- C4 (amended): for an in-order Version from a relaying,
witness-capable peer, the WtxidRelay and SendAddrV2 notices are sent
if and only if the announced version is exactly `PROTOCOL_VERSION`
(the source compares with equality, not at-least); Verack is sent in
every such case, the call succeeds, and the state becomes
AwaitingVerack. -/
theorem version_notices_iff_exact_protocol_version
    (h : MessageHandler) (vm : VersionMessage)
    (hs : h.state = .AwaitingVersion) (hr : vm.relay = true)
    (hw : ServiceFlags.has vm.services WITNESS_FLAG = true) :
    ((⟨h.magic, .WtxidRelay⟩ : RawNetworkMessage) ∈ (handle_message h (.Version vm)).sent
        ↔ vm.version = PROTOCOL_VERSION) ∧
    ((⟨h.magic, .SendAddrV2⟩ : RawNetworkMessage) ∈ (handle_message h (.Version vm)).sent
        ↔ vm.version = PROTOCOL_VERSION) ∧
    (⟨h.magic, .Verack⟩ : RawNetworkMessage) ∈ (handle_message h (.Version vm)).sent ∧
    (handle_message h (.Version vm)).handler.state = .AwaitingVerack ∧
    (handle_message h (.Version vm)).error = none := by
  by_cases hv : vm.version = PROTOCOL_VERSION <;>
    simp [handle_message, hs, handle_version_msg, hr, hw, hv]

/-- Witness for the C4 theorem at concrete peers announcing 70001. -/
theorem version_notices_iff_exact_protocol_version_witness :
    ((⟨0, .WtxidRelay⟩ : RawNetworkMessage) ∈
        (handle_message ⟨0, 5, .AwaitingVersion⟩ (.Version ⟨70001, 8, true⟩)).sent
        ↔ (70001 : Nat) = PROTOCOL_VERSION) ∧
    ((⟨0, .SendAddrV2⟩ : RawNetworkMessage) ∈
        (handle_message ⟨0, 5, .AwaitingVersion⟩ (.Version ⟨70001, 8, true⟩)).sent
        ↔ (70001 : Nat) = PROTOCOL_VERSION) ∧
    (⟨0, .Verack⟩ : RawNetworkMessage) ∈
        (handle_message ⟨0, 5, .AwaitingVersion⟩ (.Version ⟨70001, 8, true⟩)).sent ∧
    (handle_message ⟨0, 5, .AwaitingVersion⟩ (.Version ⟨70001, 8, true⟩)).handler.state =
        BroadcastState.AwaitingVerack ∧
    (handle_message ⟨0, 5, .AwaitingVersion⟩ (.Version ⟨70001, 8, true⟩)).error = none :=
  version_notices_iff_exact_protocol_version ⟨0, 5, .AwaitingVersion⟩ ⟨70001, 8, true⟩
    rfl rfl (by decide)

/-- C5 counterexample. A stream that closes cleanly before the next
frame makes the decode step fail, `receive_responses` returns that
error to its caller, and the worker then forwards it onto the outcome
channel as a Failure — a clean close IS reported as an error. -/
theorem clean_close_returns_failure :
    receiveLoop "block" true 0 [] = ⟨0, some eofError⟩ ∧
      workerReports (receiveLoop "block" true 0 []).error = [some eofError] :=
  ⟨rfl, rfl⟩

/-- C5 (amended): when the stream is exhausted the matcher loop always
returns the decode error; while the outcome channel receiver is alive
the loop can never terminate without an error (its only error-free exit
is the break taken when sending a success outcome fails because the
receiver was dropped). -/
theorem receive_loop_exit_characterization :
    (∀ (command : String) (recvOpen : Bool) (acc : Nat),
      receiveLoop command recvOpen acc [] = ⟨acc, some eofError⟩) ∧
    (∀ (command : String) (acc : Nat) (frames : List String),
      (receiveLoop command true acc frames).error.isSome = true) := by
  constructor
  · intro command recvOpen acc; rfl
  · intro command acc frames
    induction frames generalizing acc with
    | nil => rfl
    | cons cmd rest ih =>
      by_cases h1 : cmd = command
      · simp [receiveLoop, h1, ih]
      · by_cases h2 : (command = "cmpctblock" ∨ command = "blocktxn") ∧ cmd = "block"
        · obtain ⟨hc, hcmd⟩ := h2
          subst hcmd
          rcases hc with hc | hc <;> subst hc <;> rfl
        · simp [receiveLoop, h1, h2, ih]

/-- C6 counterexample. An inbound stream consisting of a lone Verack
(sent before any Version) makes `perform_handshake` complete
successfully, after which the spam flow sends its GetData requests —
no ProtocolViolation, and GetData is sent. -/
theorem early_verack_completes_spam_handshake :
    (perform_handshake 0 ⟨70001, 8, true⟩ [.Verack]).error = none ∧
      (⟨0, .GetData [.WitnessBlock 77]⟩ : RawNetworkMessage) ∈
        (spamFlowSends 0 77 ⟨70001, 8, true⟩ 3 [.Verack]).sent ∧
      (spamFlowSends 0 77 ⟨70001, 8, true⟩ 3 [.Verack]).error = none := by
  decide

/-- C6 (amended): the MessageHandler state machine rejects a Verack
received before any Version (state Connected or AwaitingVersion) as an
immediate out-of-order error with nothing written, hence no GetData;
the spam-flow `perform_handshake` instead treats an early Verack as
handshake completion, and the flow then writes exactly our Version
followed by the `number` GetData request frames. -/
theorem early_verack_state_machine_vs_spam_flow :
    (∀ h : MessageHandler, h.state = .Connected ∨ h.state = .AwaitingVersion →
      handle_message h .Verack = ⟨h, [], some "Received verack msg out of order"⟩) ∧
    (∀ (magic bh : Nat) (vm : VersionMessage) (number : Nat),
      spamFlowSends magic bh vm number [.Verack] =
        ⟨⟨magic, .Version vm⟩ ::
          List.replicate number ⟨magic, .GetData [.WitnessBlock bh]⟩, none⟩) := by
  constructor
  · intro h hs
    rcases hs with hs | hs <;> simp [handle_message, hs]
  · intro magic bh vm number
    rfl

/-- Witness for the C6 theorem at a freshly connected handler. -/
theorem early_verack_state_machine_vs_spam_flow_witness :
    handle_message ⟨0, 0, .Connected⟩ .Verack =
      ⟨⟨0, 0, .Connected⟩, [], some "Received verack msg out of order"⟩ :=
  early_verack_state_machine_vs_spam_flow.1 ⟨0, 0, .Connected⟩ (Or.inl rfl)

/-- C7: `make_requests` reports success after a partial write. The
batch buffer holds 4 bytes, the writer accepts 0 of them and returns
Ok(0), and `make_requests` — which discards the count returned by
`write` — still returns Ok. Only a writer returning an I/O error makes
it fail. -/
theorem make_requests_ok_after_partial_write :
    make_requests zeroWrite fourByteSer msg0 1 = Except.ok () ∧
      (batchBytes fourByteSer msg0 1).length = 4 ∧
      zeroWrite (batchBytes fourByteSer msg0 1) = Except.ok 0 ∧
      (∀ e : String,
        make_requests (fun _ => Except.error e) fourByteSer msg0 1 = Except.error e) :=
  ⟨rfl, rfl, rfl, fun _ => rfl⟩

/-- C8: with expected command `cmpctblock` or `blocktxn`, an inbound
`block` frame makes the matcher return the fatal descriptive failure
immediately: the delivered-success count is unchanged and no success
outcome is emitted for that frame. -/
theorem block_substitution_fatal (command : String)
    (hc : command = "cmpctblock" ∨ command = "blocktxn")
    (recvOpen : Bool) (acc : Nat) (rest : List String) :
    receiveLoop command recvOpen acc ("block" :: rest) =
      ⟨acc, some (blockInsteadMsg command)⟩ := by
  rcases hc with hc | hc <;> subst hc <;> rfl

/-- Witness for the C8 theorem with a concrete compact-block run. -/
theorem block_substitution_fatal_witness :
    receiveLoop "cmpctblock" true 0 ["block"] =
      ⟨0, some (blockInsteadMsg "cmpctblock")⟩ :=
  block_substitution_fatal "cmpctblock" (Or.inl rfl) true 0 []

/-- C9: for positive connection count, the adjusted target is
`number - number % connections`, every spawned worker is assigned
exactly the adjusted target divided by the connection count, the
assignments together cover the whole adjusted target, and
connections = 4 with number = 1001 gives the adjusted target 1000. -/
theorem orchestrator_share_split (number connections : Nat)
    (hpos : 0 < connections) :
    adjustedNumber number connections = number - number % connections ∧
    (workerAssignments number connections).length = connections ∧
    (∀ a ∈ workerAssignments number connections,
      a = adjustedNumber number connections / connections) ∧
    (workerAssignments number connections).sum = adjustedNumber number connections ∧
    adjustedNumber 1001 4 = 1000 := by
  have hmd := Nat.mod_add_div number connections
  have hadj : adjustedNumber number connections =
      connections * (number / connections) := by
    unfold adjustedNumber; omega
  have hdiv : adjustedNumber number connections / connections =
      number / connections := by
    rw [hadj]; exact Nat.mul_div_cancel_left _ hpos
  refine ⟨rfl, by simp [workerAssignments], ?_, ?_, by decide⟩
  · intro a ha
    exact List.eq_of_mem_replicate ha
  · calc (workerAssignments number connections).sum
        = connections * (adjustedNumber number connections / connections) := by
          rw [workerAssignments, List.sum_replicate, smul_eq_mul, reqsPerConnection]
      _ = connections * (number / connections) := by rw [hdiv]
      _ = adjustedNumber number connections := hadj.symm

/-- Witness for the C9 theorem at connections = 4, number = 1001. -/
theorem orchestrator_share_split_witness :
    adjustedNumber 1001 4 = 1001 - 1001 % 4 ∧
    (workerAssignments 1001 4).length = 4 ∧
    (∀ a ∈ workerAssignments 1001 4, a = adjustedNumber 1001 4 / 4) ∧
    (workerAssignments 1001 4).sum = adjustedNumber 1001 4 ∧
    adjustedNumber 1001 4 = 1000 :=
  orchestrator_share_split 1001 4 (by decide)

end SpamBlockReqs
